import Mathlib

/-!
Shallow embedding of the local-mcp-proxy core (src-tauri): shared types
(types.rs), config validation (config.rs), connection supervisor
(mcp/connection.rs), manager (mcp/manager.rs) and the proxy gateway
(proxy/server.rs).  Pure functions are translated directly; stateful Rust
code (mutation behind mutexes) becomes explicit state passing; transport
I/O (the rmcp `RunningService`) is an oracle supplying the outcome of each
downstream call.  JSON values (`serde_json::Value`) are modelled by the
`Json` inductive below; numbers are modelled as integers (no claim depends
on non-integer numerics).
-/

namespace McpProxy

/-- Model of `serde_json::Value`.  Objects are insertion-ordered field
lists with (as produced by serde_json) unique keys; `get` returns the
first binding of a key. -/
inductive Json where
  | null : Json
  | bool : Bool → Json
  | num : Int → Json
  | str : String → Json
  | arr : List Json → Json
  | obj : List (String × Json) → Json
deriving Repr

/-- Model of `Value::get(key)` on objects (None on non-objects). -/
def Json.get : Json → String → Option Json
  | .obj fields, key => (fields.find? (fun p => p.fst == key)).map (fun p => p.snd)
  | _, _ => none

/-- Model of `Value::as_str`. -/
def Json.as_str : Json → Option String
  | .str s => some s
  | _ => none

/-- Model of `Value::as_array`. -/
def Json.as_array : Json → Option (List Json)
  | .arr xs => some xs
  | _ => none

/-- Substring prefix test on character lists, mirroring byte-wise prefix
matching inside Rust `str::contains`. -/
def chars_lead : List Char → List Char → Bool
  | [], _ => true
  | _ :: _, [] => false
  | a :: as_, b :: bs => a == b && chars_lead as_ bs

/-- Substring occurrence at any position (character lists). -/
def chars_contain (needle : List Char) : List Char → Bool
  | [] => chars_lead needle []
  | c :: rest => chars_lead needle (c :: rest) || chars_contain needle rest

/-- Model of Rust `str::contains(needle)` (substring containment). -/
def str_contains (hay needle : String) : Bool :=
  chars_contain needle.data hay.data

-- ---------------------------------------------------------------------------
-- types.rs
-- ---------------------------------------------------------------------------

/-- types.rs `TransportType`. -/
inductive TransportType where
  | stdio
  | sse
  | streamableHttp
deriving DecidableEq, Repr

/-- types.rs `ConnectionState`. -/
inductive ConnectionState where
  | disconnected
  | connecting
  | connected
  | error
  | reconnecting
deriving DecidableEq, Repr

/-- types.rs `Tool` (cached tool metadata). -/
structure Tool where
  name : String
  description : Option String
  input_schema : Json
deriving Repr

/-- types.rs `Resource` (cached resource metadata). -/
structure Resource where
  uri : String
  name : Option String
  description : Option String
  mime_type : Option String
deriving Repr

/-- types.rs `McpServerConfig`.  HashMaps for env/headers become ordered
association lists (iteration order is irrelevant to every claim). -/
structure McpServerConfig where
  id : String
  name : String
  transport_type : TransportType
  command : Option String := none
  args : Option (List String) := none
  url : Option String := none
  env : Option (List (String × String)) := none
  headers : Option (List (String × String)) := none
  enabled : Bool := true
  disabled_tools : List String := []
  disabled_resources : List String := []
deriving Repr

/-- types.rs `AppConfig`.  `proxy_port` is a u16 in the source; the
validator bound (≥ 1024) is what matters here, so Nat suffices. -/
structure AppConfig where
  proxy_port : Nat
  health_check_interval_secs : Nat
  auto_reconnect : Bool
  max_reconnect_attempts : Nat
  connection_timeout_secs : Nat
  mcps : List McpServerConfig
deriving Repr

/-- types.rs `McpStatus`.  `SystemTime` values are modelled as seconds
(Nat); the RFC3339 string rendering done by chrono is external formatting
and is left as the raw instant. -/
structure McpStatus where
  id : String
  name : String
  state : ConnectionState
  transport_type : TransportType
  connected_at : Option Nat
  last_ping : Option Nat
  error_message : Option String
  tools_count : Nat
  resources_count : Nat
  uptime_seconds : Option Nat
  proxy_url : Option String
deriving Repr

-- ---------------------------------------------------------------------------
-- config.rs
-- ---------------------------------------------------------------------------

/-- config.rs `ConfigManager::validate`, inner loop over `config.mcps`
(first failing entry wins, as in the source `for` loop). -/
def validate_mcps : List McpServerConfig → Except String Unit
  | [] => .ok ()
  | mcp :: rest =>
    if mcp.id = "" then .error "MCP ID cannot be empty"
    else if mcp.name = "" then .error "MCP name cannot be empty"
    else
      match mcp.transport_type with
      | .stdio =>
        if (match mcp.command with | none => true | some c => c = "") then
          .error ("MCP '" ++ mcp.name ++ "': Stdio transport requires a command")
        else validate_mcps rest
      | .sse | .streamableHttp =>
        if (match mcp.url with | none => true | some u => u = "") then
          .error ("MCP '" ++ mcp.name ++ "': HTTP/SSE transport requires a URL")
        else validate_mcps rest

/-- config.rs `ConfigManager::validate`. -/
def ConfigManager.validate (config : AppConfig) : Except String Unit :=
  if config.proxy_port < 1024 then .error "Proxy port must be >= 1024"
  else if config.health_check_interval_secs < 5 then
    .error "Health check interval must be >= 5 seconds"
  else validate_mcps config.mcps

-- ---------------------------------------------------------------------------
-- mcp/connection.rs
-- ---------------------------------------------------------------------------

/-- Oracle model of the rmcp `RunningService<RoleClient, ()>` held by a
connected `McpConnection`.  Each field gives the outcome of the
corresponding downstream call, already serialized to JSON the way
connection.rs serializes it with `serde_json::to_value`.  For the calls
that first deserialize `params` into a typed rmcp request, a
params-deserialization failure is absorbed into the oracle's error
outcome (both kinds of failure are reported to the gateway as a plain
error string and mapped to code -32000 there). -/
structure RunningService where
  list_tools : Except String Json
  call_tool : Json → Except String Json
  list_resources : Except String Json
  read_resource : Json → Except String Json
  list_resource_templates : Except String Json
  list_prompts : Except String Json
  get_prompt : Json → Except String Json
  complete : Json → Except String Json
  set_level : Json → Except String Unit

/-- connection.rs `McpConnection`: the per-backend supervisor runtime.
Every mutex-guarded field becomes a plain field; state passing replaces
in-place mutation. -/
structure McpConnection where
  config : McpServerConfig
  state : ConnectionState
  service : Option RunningService
  tools : List Tool
  resources : List Resource
  connected_at : Option Nat
  last_ping : Option Nat
  error_message : Option String
  reconnect_attempts : Nat

/-- connection.rs `McpConnection::new` (not yet connected). -/
def McpConnection.new (config : McpServerConfig) : McpConnection :=
  { config := config
    state := .disconnected
    service := none
    tools := []
    resources := []
    connected_at := none
    last_ping := none
    error_message := none
    reconnect_attempts := 0 }

/-- connection.rs `McpConnection::set_state`: writes the new state and
updates the related fields (`connected_at`, `error_message`,
`reconnect_attempts`) exactly as the source `match` does. -/
def McpConnection.set_state (conn : McpConnection) (new_state : ConnectionState)
    (now : Nat) : McpConnection :=
  let conn := { conn with state := new_state }
  match new_state with
  | .connected =>
    { conn with connected_at := some now, error_message := none, reconnect_attempts := 0 }
  | .disconnected => { conn with connected_at := none }
  | _ => conn

/-- connection.rs `McpConnection::set_error`. -/
def McpConnection.set_error (conn : McpConnection) (msg : String) : McpConnection :=
  { conn with error_message := some msg }

/-- connection.rs `McpConnection::connect` specialised to a permanently
down backend: the transport-open step fails with `errMsg`, so `connect`
goes `Connecting`, records the error, transitions to `Error` and returns
the failure; no service is installed and the reconnect counter is not
touched (only a transition to `Connected` resets it). -/
def McpConnection.connect_failing (conn : McpConnection) (errMsg : String)
    (now : Nat) : McpConnection :=
  ((conn.set_state .connecting now).set_error errMsg).set_state .error now

/-- connection.rs `McpConnection::execute_request`.  Error values are the
strings that `format!("{}", e)` would print at the gateway: anyhow shows
only the outermost context, so each arm's context string is the whole
message, and the unknown-method arm shows its formatted message. -/
def McpConnection.execute_request (conn : McpConnection) (method : String)
    (params : Json) : Except String Json :=
  match conn.service with
  | none => .error "Not connected"
  | some service =>
    if method = "ping" then
      match service.list_tools with
      | .ok _ => .ok (.obj [])
      | .error _ => .error "ping failed"
    else if method = "tools/list" then
      match service.list_tools with
      | .ok v => .ok v
      | .error _ => .error "tools/list failed"
    else if method = "tools/call" then
      match service.call_tool params with
      | .ok v => .ok v
      | .error _ => .error "tools/call failed"
    else if method = "resources/list" then
      match service.list_resources with
      | .ok v => .ok v
      | .error _ => .error "resources/list failed"
    else if method = "resources/read" then
      match service.read_resource params with
      | .ok v => .ok v
      | .error _ => .error "resources/read failed"
    else if method = "resources/templates/list" then
      match service.list_resource_templates with
      | .ok v => .ok v
      | .error _ => .error "resources/templates/list failed"
    else if method = "prompts/list" then
      match service.list_prompts with
      | .ok v => .ok v
      | .error _ => .error "prompts/list failed"
    else if method = "prompts/get" then
      match service.get_prompt params with
      | .ok v => .ok v
      | .error _ => .error "prompts/get failed"
    else if method = "completion/complete" then
      match service.complete params with
      | .ok v => .ok v
      | .error _ => .error "completion/complete failed"
    else if method = "logging/setLevel" then
      match service.set_level params with
      | .ok _ => .ok (.obj [])
      | .error _ => .error "logging/setLevel failed"
    else .error ("Method not found: " ++ method)

/-- The method whitelist recognised by `execute_request` (spec §4.2). -/
def method_whitelist : List String :=
  ["ping", "tools/list", "tools/call", "resources/list", "resources/read",
   "resources/templates/list", "prompts/list", "prompts/get",
   "completion/complete", "logging/setLevel"]

/-- connection.rs `McpConnection::status`.  `now` stands for
`SystemTime::now()`; `duration_since` fails (None) when the clock reads
earlier than `connected_at`, exactly as `.ok()` drops that error. -/
def McpConnection.status (conn : McpConnection) (proxy_port : Nat) (now : Nat) :
    McpStatus :=
  let uptime_seconds :=
    conn.connected_at.bind (fun t => if t ≤ now then some (now - t) else none)
  let proxy_url :=
    if conn.state = ConnectionState.connected then
      some ("http://127.0.0.1:" ++ toString proxy_port ++ "/mcp/" ++ conn.config.id)
    else none
  { id := conn.config.id
    name := conn.config.name
    state := conn.state
    transport_type := conn.config.transport_type
    connected_at := conn.connected_at
    last_ping := conn.last_ping
    error_message := conn.error_message
    tools_count := conn.tools.length
    resources_count := conn.resources.length
    uptime_seconds := uptime_seconds
    proxy_url := proxy_url }

-- ---------------------------------------------------------------------------
-- mcp/manager.rs
-- ---------------------------------------------------------------------------

/-- mcp/manager.rs `McpManager`.  The `HashMap<String, Arc<McpConnection>>`
registry is modelled as an association list with unique keys; `insert`
replaces an existing key's value in place and otherwise appends, which
preserves exactly the map's cardinality semantics. -/
structure McpManager where
  connections : List (String × McpConnection)
  config : AppConfig

/-- HashMap::insert on the association-list registry model. -/
def insert_conn : List (String × McpConnection) → String → McpConnection →
    List (String × McpConnection)
  | [], id, conn => [(id, conn)]
  | (k, v) :: rest, id, conn =>
    if k = id then (k, conn) :: rest else (k, v) :: insert_conn rest id conn

/-- mcp/manager.rs `McpManager::new`. -/
def McpManager.new (config : AppConfig) : McpManager :=
  { connections := [], config := config }

/-- mcp/manager.rs `McpManager::initialize`: walk `config.mcps` in order,
skip disabled entries, construct a connection, attempt `connect()`
(failure logged, never fatal) and insert it into the registry.  The
`connect()` attempt performs transport I/O; its outcome — the connection
value after the attempt — is supplied by the `connect_outcome` oracle.
The registry insertion happens whether or not the connect succeeded,
exactly as in the source. -/
def McpManager.init (m : McpManager)
    (connect_outcome : McpServerConfig → McpConnection) : McpManager :=
  { m with
    connections :=
      m.config.mcps.foldl
        (fun acc mcp =>
          if mcp.enabled then insert_conn acc mcp.id (connect_outcome mcp) else acc)
        m.connections }

/-- mcp/manager.rs `McpManager::get_connection`. -/
def McpManager.get_connection (m : McpManager) (id : String) :
    Option McpConnection :=
  (m.connections.find? (fun p => p.fst == id)).map (fun p => p.snd)

/-- Modelled from the spec: `McpManager::get_disabled_items` is called by
the gateway (server.rs) and by commands.rs, but its definition is not
among the provided sources.  Per the spec, disabled-item policy lives on
the backend's config entry (§4.3 `set_disabled_items`: "update policy on
the config entry"; §4.4: filtering consults "the backend's
`disabled_tools`" / `disabled_resources`), so this returns the
`disabled_tools` and `disabled_resources` lists of the config entry with
the given id, and empty lists when no such entry exists. -/
def McpManager.get_disabled_items (m : McpManager) (id : String) :
    List String × List String :=
  match m.config.mcps.find? (fun c => c.id == id) with
  | some c => (c.disabled_tools, c.disabled_resources)
  | none => ([], [])

/-- mcp/manager.rs `McpManager::update_config`: copies `proxy_port`,
`health_check_interval_secs`, `auto_reconnect` and
`max_reconnect_attempts` from the argument onto the stored config; the
source copies nothing else (in particular neither
`connection_timeout_secs` nor `mcps`). -/
def McpManager.update_config (m : McpManager) (config : AppConfig) : McpManager :=
  { m with
    config := { m.config with
      proxy_port := config.proxy_port
      health_check_interval_secs := config.health_check_interval_secs
      auto_reconnect := config.auto_reconnect
      max_reconnect_attempts := config.max_reconnect_attempts } }

/-- mcp/manager.rs `McpManager::health_check_cycle`, restricted to a
single supervisor whose backend is permanently down (every `connect()`
fails with `errMsg`).  Connected: `ping()` fails, is logged, and changes
no state (connection.rs `ping` never writes the state).  Error or
Disconnected: when `auto_reconnect` and the backend's `enabled` flag hold
and `reconnect_attempts < max_reconnect_attempts`, increment the counter
and call `connect()` (which fails).  Anything else is skipped.  Returns
the new connection and the number of `connect()` calls performed (0 or
1). -/
def health_cycle_down (auto_reconnect : Bool) (max_reconnect_attempts : Nat)
    (errMsg : String) (now : Nat) (conn : McpConnection) : McpConnection × Nat :=
  match conn.state with
  | .connected => (conn, 0)
  | .error | .disconnected =>
    if auto_reconnect && conn.config.enabled
        && decide (conn.reconnect_attempts < max_reconnect_attempts) then
      (({ conn with reconnect_attempts := conn.reconnect_attempts + 1
        }).connect_failing errMsg now, 1)
    else (conn, 0)
  | _ => (conn, 0)

/-- Iterated health cycles against a permanently down backend; the second
component accumulates the total number of `connect()` calls. -/
def run_health_cycles (auto_reconnect : Bool) (max_reconnect_attempts : Nat)
    (errMsg : String) (now : Nat) : Nat → McpConnection → McpConnection × Nat
  | 0, conn => (conn, 0)
  | n + 1, conn =>
    let step := health_cycle_down auto_reconnect max_reconnect_attempts errMsg now conn
    let rest := run_health_cycles auto_reconnect max_reconnect_attempts errMsg now n step.fst
    (rest.fst, step.snd + rest.snd)

-- ---------------------------------------------------------------------------
-- proxy/server.rs
-- ---------------------------------------------------------------------------

/-- HTTP-level reply of the gateway handlers on /mcp/:id (status plus
body where one exists). -/
inductive HttpReply where
  | accepted
  | json_body : Json → HttpReply
  | not_found
  | service_unavailable
  | method_not_allowed
deriving Repr

/-- Success envelope built by `handle_single_request`. -/
def success_envelope (id result : Json) : Json :=
  .obj [("jsonrpc", .str "2.0"), ("id", id), ("result", result)]

/-- Error envelope built by `handle_single_request`. -/
def error_envelope (id : Json) (code : Int) (message : String) : Json :=
  .obj [("jsonrpc", .str "2.0"), ("id", id),
        ("error", .obj [("code", .num code), ("message", .str message)])]

/-- The JSON-RPC error code chosen by `handle_single_request` from an
execute failure's display string. -/
def error_code_for (e : String) : Int :=
  if str_contains e "Method not found" then -32601 else -32000

/-- The fixed `initialize` result served by the gateway itself. -/
def initialize_result : Json :=
  .obj [("protocolVersion", .str "2025-03-26"),
        ("capabilities", .obj
          [("tools", .obj [("listChanged", .bool false)]),
           ("resources", .obj [("subscribe", .bool false), ("listChanged", .bool false)]),
           ("prompts", .obj [("listChanged", .bool false)])]),
        ("serverInfo", .obj [("name", .str "Local MCP Proxy"), ("version", .str "0.1.0")])]

/-- server.rs tools/list retain predicate: keep an entry unless its
`name` field is a string found in `disabled_tools` (entries without a
string `name` are kept — `unwrap_or(true)`). -/
def keep_tool (disabled_tools : List String) (t : Json) : Bool :=
  match (t.get "name").bind Json.as_str with
  | some name => !(disabled_tools.contains name)
  | none => true

/-- server.rs resources/list retain predicate (same shape, on `uri`). -/
def keep_resource (disabled_resources : List String) (r : Json) : Bool :=
  match (r.get "uri").bind Json.as_str with
  | some uri => !(disabled_resources.contains uri)
  | none => true

/-- In-place array filtering through `get_mut(key)` / `as_array_mut` /
`retain`: when the value is an object whose `key` entry is an array, that
array is filtered; any other shape is untouched.  serde_json objects have
unique keys, so mapping over all bindings of `key` coincides with the
source's single `get_mut`. -/
def filter_field (key : String) (keep : Json → Bool) : Json → Json
  | .obj fields =>
    .obj (fields.map (fun p =>
      if p.fst = key then
        match p.snd with
        | .arr xs => (p.fst, .arr (xs.filter keep))
        | v => (p.fst, v)
      else p))
  | v => v

/-- Outcome of `handle_single_request`: the optional response element,
the list of (method, params) calls dispatched to the backend through
`execute_request`, and the connection afterwards (this code path performs
no supervisor-state writes, which the explicit state passing makes
checkable). -/
structure HandleResult where
  response : Option Json
  dispatched : List (String × Json)
  conn : McpConnection

/-- server.rs `handle_single_request`: extract `method` (must be a
string, else no response), `params` (defaulting to null), and `id`;
without an `id` the message is treated as a notification and nothing is
returned (and nothing is dispatched); `initialize` is answered by the
gateway itself; everything else is forwarded to `execute_request`, the
tools/list and resources/list results are filtered against the disabled
lists, and the result or error is wrapped in a JSON-RPC envelope (error
code -32601 when the failure string contains "Method not found", else
-32000). -/
def handle_single_request (request : Json) (conn : McpConnection)
    (disabled : List String × List String) : HandleResult :=
  match (request.get "method").bind Json.as_str with
  | none => ⟨none, [], conn⟩
  | some method =>
    let params := (request.get "params").getD .null
    match request.get "id" with
    | none => ⟨none, [], conn⟩
    | some id =>
      if method = "initialize" then
        ⟨some (success_envelope id initialize_result), [], conn⟩
      else
        match conn.execute_request method params with
        | .ok result =>
          let result :=
            if method = "tools/list" then
              filter_field "tools" (keep_tool disabled.fst) result
            else result
          let result :=
            if method = "resources/list" then
              filter_field "resources" (keep_resource disabled.snd) result
            else result
          ⟨some (success_envelope id result), [(method, params)], conn⟩
        | .error e =>
          ⟨some (error_envelope id (error_code_for e) e), [(method, params)], conn⟩

/-- server.rs `streamable_http_post`: look up the connection (404 when
the id is unknown), fetch the disabled lists, then dispatch.  A JSON
array body is a batch: each element is handled in order against the same
connection and the response-bearing elements are collected (the source's
Vec-push loop is the `filterMap`, and the dispatches accumulate in
traversal order); an empty response list yields 202, otherwise the JSON
array of responses.  A non-array body is handled alone: 202 when no
response element is produced, else the response itself.  The second
component is the full list of (method, params) messages the backend
received. -/
def streamable_http_post (mgr : McpManager) (id : String) (body : Json) :
    HttpReply × List (String × Json) :=
  match mgr.get_connection id with
  | none => (.not_found, [])
  | some conn =>
    let disabled := mgr.get_disabled_items id
    match body.as_array with
    | some requests =>
      let responses :=
        requests.filterMap (fun req => (handle_single_request req conn disabled).response)
      let dispatched :=
        (requests.map (fun req => (handle_single_request req conn disabled).dispatched)).flatten
      if responses.isEmpty then (.accepted, dispatched)
      else (.json_body (.arr responses), dispatched)
    | none =>
      let r := handle_single_request body conn disabled
      match r.response with
      | some resp => (.json_body resp, r.dispatched)
      | none => (.accepted, r.dispatched)

/-- server.rs `streamable_http_get`: 404 for an unknown id, 503 when the
connection is not `Connected`, otherwise 405 (server-initiated
notifications are not proxied). -/
def streamable_http_get (mgr : McpManager) (id : String) : HttpReply :=
  match mgr.get_connection id with
  | none => .not_found
  | some conn =>
    if conn.state ≠ ConnectionState.connected then .service_unavailable
    else .method_not_allowed

-- ---------------------------------------------------------------------------
-- Sample fixtures used by witnesses and counterexamples
-- ---------------------------------------------------------------------------

/-- A concrete backend service: two tools (`a`, `b`) plus a nameless
entry, two resources (`u1`, `u2`); every other call fails. -/
def sample_service : RunningService :=
  { list_tools := .ok (.obj [("tools", .arr
      [.obj [("name", .str "a")], .obj [("name", .str "b")], .obj [("x", .num 1)]])])
    call_tool := fun _ => .error "tool error"
    list_resources := .ok (.obj [("resources", .arr
      [.obj [("uri", .str "u1")], .obj [("uri", .str "u2")]])])
    read_resource := fun _ => .error "resource error"
    list_resource_templates := .error "templates error"
    list_prompts := .error "prompts error"
    get_prompt := fun _ => .error "prompt error"
    complete := fun _ => .error "complete error"
    set_level := fun _ => .error "level error" }

/-- A concrete backend config with id `x`, disabling tool `b` and
resource `u2`. -/
def sample_config : McpServerConfig :=
  { id := "x", name := "x", transport_type := .stdio, command := some "cmd",
    disabled_tools := ["b"], disabled_resources := ["u2"] }

/-- A connected supervisor for `sample_config`. -/
def sample_conn : McpConnection :=
  { McpConnection.new sample_config with state := .connected, service := some sample_service }

/-- App config registering `sample_config`. -/
def sample_app_config : AppConfig :=
  { proxy_port := 3001, health_check_interval_secs := 30, auto_reconnect := true,
    max_reconnect_attempts := 5, connection_timeout_secs := 30, mcps := [sample_config] }

/-- Manager whose registry holds the connected backend `x`. -/
def sample_mgr : McpManager :=
  { connections := [("x", sample_conn)], config := sample_app_config }

/-- The same backend after a failed connect: state Error, no transport
session. -/
def sample_down_conn : McpConnection :=
  { McpConnection.new sample_config with
      state := .error, error_message := some "spawn failed" }

/-- Manager whose registry holds the failed backend `x`. -/
def sample_down_mgr : McpManager :=
  { connections := [("x", sample_down_conn)], config := sample_app_config }

-- ---------------------------------------------------------------------------
-- C6: update_config frame
-- ---------------------------------------------------------------------------

/-- Stored config before `update_config` (timeout 30). -/
def c6_old_config : AppConfig :=
  { proxy_port := 3001, health_check_interval_secs := 30, auto_reconnect := true,
    max_reconnect_attempts := 5, connection_timeout_secs := 30, mcps := [] }

/-- Argument config (timeout 99). -/
def c6_new_config : AppConfig :=
  { proxy_port := 4001, health_check_interval_secs := 10, auto_reconnect := false,
    max_reconnect_attempts := 2, connection_timeout_secs := 99, mcps := [] }

/-- C6 counterexample: `update_config` does not copy
`connection_timeout_secs`: with a stored timeout of 30 and an argument
carrying 99, the stored config still reads 30 afterwards, so the claim
that all five global knobs are set to the argument's values is false. -/
theorem update_config_timeout_counterexample :
    (( McpManager.new c6_old_config).update_config c6_new_config).config.connection_timeout_secs = 30
    ∧ c6_new_config.connection_timeout_secs = 99
    ∧ ¬ ((( McpManager.new c6_old_config).update_config c6_new_config).config.connection_timeout_secs
          = c6_new_config.connection_timeout_secs) :=
  ⟨rfl, rfl, by decide⟩

/-- C6 (amended): `update_config` sets exactly the four knobs
`proxy_port`, `health_check_interval_secs`, `auto_reconnect` and
`max_reconnect_attempts` to the argument's values, and leaves
`connection_timeout_secs`, the stored backend list `mcps`, and the
supervisor registry unchanged. -/
theorem update_config_frame (m : McpManager) (c : AppConfig) :
    (m.update_config c).config.proxy_port = c.proxy_port
    ∧ (m.update_config c).config.health_check_interval_secs = c.health_check_interval_secs
    ∧ (m.update_config c).config.auto_reconnect = c.auto_reconnect
    ∧ (m.update_config c).config.max_reconnect_attempts = c.max_reconnect_attempts
    ∧ (m.update_config c).config.connection_timeout_secs = m.config.connection_timeout_secs
    ∧ (m.update_config c).config.mcps = m.config.mcps
    ∧ (m.update_config c).connections = m.connections :=
  ⟨rfl, rfl, rfl, rfl, rfl, rfl, rfl⟩

-- ---------------------------------------------------------------------------
-- C8: status proxy_url iff Connected
-- ---------------------------------------------------------------------------

/-- C8: for every supervisor and proxy port, the status snapshot's
`proxy_url` is populated exactly when the connection state is
`Connected`, and then it is the string
`http://127.0.0.1:{proxy_port}/mcp/{id}`. -/
theorem status_proxy_url_iff_connected (conn : McpConnection) (proxy_port now : Nat) :
    (conn.status proxy_port now).proxy_url
      = (if conn.state = ConnectionState.connected
         then some ("http://127.0.0.1:" ++ toString proxy_port ++ "/mcp/" ++ conn.config.id)
         else none) :=
  rfl

-- ---------------------------------------------------------------------------
-- C9: reconnect attempts bounded
-- ---------------------------------------------------------------------------

/-- Failed connect attempts never change the reconnect counter. -/
theorem connect_failing_attempts (c : McpConnection) (e : String) (now : Nat) :
    (c.connect_failing e now).reconnect_attempts = c.reconnect_attempts :=
  rfl

/-- A failed connect leaves the supervisor in the Error state. -/
theorem connect_failing_state (c : McpConnection) (e : String) (now : Nat) :
    (c.connect_failing e now).state = ConnectionState.error :=
  rfl

/-- Connect-call count over `n` cycles is bounded by the remaining
attempt budget. -/
theorem run_health_cycles_calls_le (a : Bool) (mx : Nat) (e : String) (now : Nat) :
    ∀ (n : Nat) (conn : McpConnection),
      (run_health_cycles a mx e now n conn).snd ≤ mx - conn.reconnect_attempts := by
  intro n
  induction n with
  | zero => intro conn; simp [run_health_cycles]
  | succ k ih =>
    intro conn
    unfold run_health_cycles
    unfold health_cycle_down
    cases hs : conn.state with
    | connected => simpa using ih conn
    | connecting => simpa using ih conn
    | reconnecting => simpa using ih conn
    | error =>
      by_cases hb : (a && conn.config.enabled
          && decide (conn.reconnect_attempts < mx)) = true
      · simp only [hb, if_pos]
        have hlt : conn.reconnect_attempts < mx := by
          have := hb
          simp only [Bool.and_eq_true, decide_eq_true_eq] at this
          exact this.2
        have hrec : (run_health_cycles a mx e now k
            (({ config := conn.config, state := ConnectionState.error,
                service := conn.service, tools := conn.tools,
                resources := conn.resources, connected_at := conn.connected_at,
                last_ping := conn.last_ping, error_message := conn.error_message,
                reconnect_attempts := conn.reconnect_attempts + 1 } :
              McpConnection).connect_failing e now)).snd
            ≤ mx - (conn.reconnect_attempts + 1) := ih _
        omega
      · simp only [hb, if_neg, Bool.false_eq_true, not_false_iff]
        simpa using ih conn
    | disconnected =>
      by_cases hb : (a && conn.config.enabled
          && decide (conn.reconnect_attempts < mx)) = true
      · simp only [hb, if_pos]
        have hlt : conn.reconnect_attempts < mx := by
          have := hb
          simp only [Bool.and_eq_true, decide_eq_true_eq] at this
          exact this.2
        have hrec : (run_health_cycles a mx e now k
            (({ config := conn.config, state := ConnectionState.disconnected,
                service := conn.service, tools := conn.tools,
                resources := conn.resources, connected_at := conn.connected_at,
                last_ping := conn.last_ping, error_message := conn.error_message,
                reconnect_attempts := conn.reconnect_attempts + 1 } :
              McpConnection).connect_failing e now)).snd
            ≤ mx - (conn.reconnect_attempts + 1) := ih _
        omega
      · simp only [hb, if_neg, Bool.false_eq_true, not_false_iff]
        simpa using ih conn

/-- C9: against a permanently down backend (every `connect()` fails),
any number of health-check cycles performs at most
`max_reconnect_attempts` connect calls in total, from any starting
supervisor runtime — the counter is incremented before each attempt,
only a transition to Connected (which never happens here) resets it, and
an attempt is made only while the counter is below the maximum with
auto-reconnect and the backend enabled. -/
theorem reconnect_attempts_bounded (a : Bool) (mx : Nat) (e : String)
    (now n : Nat) (conn : McpConnection) :
    (run_health_cycles a mx e now n conn).snd ≤ mx :=
  le_trans (run_health_cycles_calls_le a mx e now n conn) (Nat.sub_le _ _)

-- ---------------------------------------------------------------------------
-- C10: missing or non-string method yields no response element
-- ---------------------------------------------------------------------------

/-- C10: a request object whose `method` is missing or not a string
produces no response element and no backend dispatch, even when it
carries an `id`; as a single (non-array) body it therefore yields HTTP
202 with an empty body. -/
theorem missing_method_no_response (mgr : McpManager) (id : String)
    (conn : McpConnection) (body : Json)
    (hconn : mgr.get_connection id = some conn)
    (hm : (Json.get body "method").bind Json.as_str = none)
    (harr : body.as_array = none) :
    handle_single_request body conn (mgr.get_disabled_items id)
      = ⟨none, [], conn⟩
    ∧ streamable_http_post mgr id body = (.accepted, []) := by
  have h1 : handle_single_request body conn (mgr.get_disabled_items id)
      = ⟨none, [], conn⟩ := by
    unfold handle_single_request
    rw [hm]
  refine ⟨h1, ?_⟩
  unfold streamable_http_post
  rw [hconn]
  simp only [harr, h1]

/-- C10 witness: a concrete id-carrying request with no `method` field
gets HTTP 202. -/
theorem missing_method_no_response_witness :
    sample_mgr.get_connection "x" = some sample_conn
    ∧ (Json.get (Json.obj [("id", Json.num 1)]) "method").bind Json.as_str = none
    ∧ streamable_http_post sample_mgr "x" (Json.obj [("id", Json.num 1)])
        = (HttpReply.accepted, []) :=
  ⟨rfl, rfl,
    (missing_method_no_response sample_mgr "x" sample_conn
      (Json.obj [("id", Json.num 1)]) rfl rfl rfl).2⟩

-- ---------------------------------------------------------------------------
-- C2: notifications
-- ---------------------------------------------------------------------------

/-- Dispatch accumulation over a batch whose every element is handled as
a notification is empty. -/
theorem dispatched_flatten_nil (conn : McpConnection) (d : List String × List String) :
    ∀ (reqs : List Json),
      (∀ r ∈ reqs, handle_single_request r conn d = ⟨none, [], conn⟩) →
      (reqs.map (fun req => (handle_single_request req conn d).dispatched)).flatten = [] := by
  intro reqs
  induction reqs with
  | nil => intro _; rfl
  | cons r rest ih =>
    intro hall
    simp only [List.map_cons, List.flatten_cons]
    rw [hall r (by simp)]
    exact ih (fun q hq => hall q (by simp [hq]))

/-- A message without an `id` produces no response element and no
backend dispatch, whatever its `method`. -/
theorem handle_no_id (body : Json) (conn : McpConnection)
    (d : List String × List String) (hid : Json.get body "id" = none) :
    handle_single_request body conn d = ⟨none, [], conn⟩ := by
  unfold handle_single_request
  cases h : (Json.get body "method").bind Json.as_str with
  | none => rfl
  | some m => simp only [hid]

/-- C2 counterexample: a single notification (`ping` with no `id`) does
get HTTP 202 with an empty body, but the gateway never dispatches it —
`handle_single_request` returns before calling `execute_request` — so
the backend receives zero messages, not exactly one as claimed. -/
theorem notification_dispatch_counterexample :
    (streamable_http_post sample_mgr "x"
        (Json.obj [("jsonrpc", Json.str "2.0"), ("method", Json.str "ping")])).fst
      = HttpReply.accepted
    ∧ (streamable_http_post sample_mgr "x"
        (Json.obj [("jsonrpc", Json.str "2.0"), ("method", Json.str "ping")])).snd.length
      = 0
    ∧ ¬ ((streamable_http_post sample_mgr "x"
        (Json.obj [("jsonrpc", Json.str "2.0"), ("method", Json.str "ping")])).snd.length
      = 1) :=
  ⟨rfl, rfl, by decide⟩

/-- C2 (amended): a single body lacking `id` yields HTTP 202 with an
empty body and the backend receives zero messages (the notification is
dropped, not forwarded); a batch consisting only of notifications
likewise dispatches nothing and yields HTTP 202 with an empty body. -/
theorem notification_yields_accepted_without_dispatch
    (mgr : McpManager) (id : String) (conn : McpConnection)
    (hconn : mgr.get_connection id = some conn) :
    (∀ body : Json, body.as_array = none → Json.get body "id" = none →
        streamable_http_post mgr id body = (.accepted, []))
    ∧ (∀ reqs : List Json, (∀ r ∈ reqs, Json.get r "id" = none) →
        streamable_http_post mgr id (.arr reqs) = (.accepted, [])) := by
  constructor
  · intro body harr hid
    unfold streamable_http_post
    rw [hconn]
    simp only [harr, handle_no_id body conn _ hid]
  · intro reqs hids
    unfold streamable_http_post
    rw [hconn]
    have hall : ∀ r ∈ reqs,
        handle_single_request r conn (mgr.get_disabled_items id) = ⟨none, [], conn⟩ :=
      fun r hr => handle_no_id r conn _ (hids r hr)
    have hresp : reqs.filterMap
        (fun req => (handle_single_request req conn (mgr.get_disabled_items id)).response)
        = [] := by
      rw [List.filterMap_eq_nil_iff]
      intro r hr
      rw [hall r hr]
    have hdisp := dispatched_flatten_nil conn (mgr.get_disabled_items id) reqs hall
    simp only [Json.as_array, hresp, hdisp, List.isEmpty_nil, if_pos]

/-- C2 amended witness: concrete single notification and all-notification
batch against the connected sample backend. -/
theorem notification_yields_accepted_witness :
    sample_mgr.get_connection "x" = some sample_conn
    ∧ streamable_http_post sample_mgr "x"
        (Json.obj [("jsonrpc", Json.str "2.0"), ("method", Json.str "tools/list")])
      = (HttpReply.accepted, [])
    ∧ streamable_http_post sample_mgr "x"
        (Json.arr [Json.obj [("method", Json.str "ping")],
                   Json.obj [("method", Json.str "tools/list")]])
      = (HttpReply.accepted, []) :=
  ⟨rfl,
   (notification_yields_accepted_without_dispatch sample_mgr "x" sample_conn rfl).1
     _ rfl rfl,
   (notification_yields_accepted_without_dispatch sample_mgr "x" sample_conn rfl).2
     _ (by
        intro r hr
        simp only [List.mem_cons, List.not_mem_nil, or_false] at hr
        rcases hr with h | h <;> subst h <;> rfl)⟩

-- ---------------------------------------------------------------------------
-- C3: POST to known but not-Connected backend
-- ---------------------------------------------------------------------------

/-- C3 counterexample: backend `x` exists in the registry but is in the
Error state with no transport session; an id-carrying `tools/list` POST
is answered not with HTTP 503 but with HTTP 200 carrying a JSON-RPC
error envelope (code -32000, message "Not connected"). -/
theorem post_not_connected_counterexample :
    (streamable_http_post sample_down_mgr "x"
        (Json.obj [("id", Json.num 4), ("method", Json.str "tools/list")])).fst
      = HttpReply.json_body (error_envelope (Json.num 4) (-32000) "Not connected")
    ∧ sample_down_conn.state = ConnectionState.error
    ∧ ¬ ((streamable_http_post sample_down_mgr "x"
        (Json.obj [("id", Json.num 4), ("method", Json.str "tools/list")])).fst
      = HttpReply.service_unavailable) := by
  refine ⟨rfl, rfl, ?_⟩
  intro h
  rw [show (streamable_http_post sample_down_mgr "x"
      (Json.obj [("id", Json.num 4), ("method", Json.str "tools/list")])).fst
      = HttpReply.json_body (error_envelope (Json.num 4) (-32000) "Not connected") from rfl] at h
  exact HttpReply.noConfusion h

/-- The error-code mapping sends "Not connected" to -32000. -/
theorem error_code_not_connected : error_code_for "Not connected" = -32000 := by
  decide

/-- C3 (amended): the POST /mcp/:id handler never replies HTTP 503,
whatever the backend's state — its reply is 404 for an unknown id and
otherwise 202 or a JSON body; when the addressed backend's transport
session is absent (`service` is None, as after a never-attempted or
initially failed connect, or a disconnect — note the Err branch of
`connect()` does not clear an existing session, so an Error-state
backend can instead hold a stale session and have the request forwarded
over it), an id-carrying non-initialize request is answered HTTP 200
with the JSON-RPC error envelope code -32000, message "Not connected";
HTTP 503 is produced for a not-Connected backend only by the GET
/mcp/:id handler. -/
theorem post_not_connected_returns_jsonrpc_error
    (mgr : McpManager) (id : String) (conn : McpConnection)
    (hconn : mgr.get_connection id = some conn)
    (hsvc : conn.service = none)
    (body : Json) (harr : body.as_array = none)
    (m : String) (hm : (Json.get body "method").bind Json.as_str = some m)
    (hinit : m ≠ "initialize")
    (rid : Json) (hid : Json.get body "id" = some rid) :
    streamable_http_post mgr id body
      = (.json_body (error_envelope rid (-32000) "Not connected"),
         [(m, (Json.get body "params").getD Json.null)])
    ∧ (∀ (mgr2 : McpManager) (id2 : String) (body2 : Json),
        ¬ ((streamable_http_post mgr2 id2 body2).fst = HttpReply.service_unavailable))
    ∧ (conn.state ≠ ConnectionState.connected →
        streamable_http_get mgr id = .service_unavailable) := by
  have hexec : conn.execute_request m ((Json.get body "params").getD Json.null)
      = .error "Not connected" := by
    unfold McpConnection.execute_request
    rw [hsvc]
  have hh : handle_single_request body conn (mgr.get_disabled_items id)
      = ⟨some (error_envelope rid (-32000) "Not connected"),
         [(m, (Json.get body "params").getD Json.null)], conn⟩ := by
    unfold handle_single_request
    rw [hm, hid]
    simp only [if_neg hinit, hexec]
    rw [show error_code_for "Not connected" = -32000 from error_code_not_connected]
  refine ⟨?_, ?_, ?_⟩
  · unfold streamable_http_post
    rw [hconn]
    simp only [harr, hh]
  · intro mgr2 id2 body2
    unfold streamable_http_post
    cases hc : mgr2.get_connection id2 with
    | none => simp
    | some c =>
      cases ha : body2.as_array with
      | some reqs =>
        cases he : (reqs.filterMap
            (fun req => (handle_single_request req c (mgr2.get_disabled_items id2)).response)).isEmpty
        · simp [ha, he]
        · simp [ha, he]
      | none =>
        cases hr : (handle_single_request body2 c (mgr2.get_disabled_items id2)).response
        · simp [ha, hr]
        · simp [ha, hr]
  · intro hstate
    unfold streamable_http_get
    rw [hconn]
    simp only [if_pos hstate]

/-- C3 amended witness: the concrete Error-state backend `x` with no
session and an id-carrying `tools/list` request, plus the never-503
conjunct instantiated at that same POST. -/
theorem post_not_connected_witness :
    sample_down_mgr.get_connection "x" = some sample_down_conn
    ∧ sample_down_conn.service = none
    ∧ streamable_http_post sample_down_mgr "x"
        (Json.obj [("id", Json.num 4), ("method", Json.str "tools/list")])
      = (HttpReply.json_body (error_envelope (Json.num 4) (-32000) "Not connected"),
         [("tools/list", Json.null)])
    ∧ ¬ ((streamable_http_post sample_down_mgr "x"
        (Json.obj [("id", Json.num 4), ("method", Json.str "tools/list")])).fst
          = HttpReply.service_unavailable)
    ∧ streamable_http_get sample_down_mgr "x" = HttpReply.service_unavailable :=
  ⟨rfl, rfl,
   (post_not_connected_returns_jsonrpc_error sample_down_mgr "x" sample_down_conn
      rfl rfl (Json.obj [("id", Json.num 4), ("method", Json.str "tools/list")])
      rfl "tools/list" rfl (by decide) (Json.num 4) rfl).1,
   (post_not_connected_returns_jsonrpc_error sample_down_mgr "x" sample_down_conn
      rfl rfl (Json.obj [("id", Json.num 4), ("method", Json.str "tools/list")])
      rfl "tools/list" rfl (by decide) (Json.num 4) rfl).2.1 sample_down_mgr "x"
      (Json.obj [("id", Json.num 4), ("method", Json.str "tools/list")]),
   (post_not_connected_returns_jsonrpc_error sample_down_mgr "x" sample_down_conn
      rfl rfl (Json.obj [("id", Json.num 4), ("method", Json.str "tools/list")])
      rfl "tools/list" rfl (by decide) (Json.num 4) rfl).2.2 (by decide)⟩

-- ---------------------------------------------------------------------------
-- C7: unknown methods map to -32601
-- ---------------------------------------------------------------------------

/-- A list prefix stays a prefix of any extension. -/
theorem chars_lead_extend (a : List Char) :
    ∀ (b c : List Char), chars_lead a b = true → chars_lead a (b ++ c) = true := by
  induction a with
  | nil => intro b c _; rfl
  | cons x xs ih =>
    intro b c h
    cases b with
    | nil => simp [chars_lead] at h
    | cons y ys =>
      simp only [chars_lead, Bool.and_eq_true] at h
      simp only [List.cons_append, chars_lead, Bool.and_eq_true]
      exact ⟨h.1, ih ys c h.2⟩

/-- A prefix occurrence is an occurrence. -/
theorem chars_contain_of_lead (needle hay : List Char)
    (h : chars_lead needle hay = true) : chars_contain needle hay = true := by
  cases hay with
  | nil => exact h
  | cons c rest => simp [chars_contain, h]

/-- Every string of the form `Method not found: {m}` contains the
`Method not found` marker the gateway greps for. -/
theorem method_not_found_marker (m : String) :
    str_contains ("Method not found: " ++ m) "Method not found" = true := by
  have hb : chars_lead "Method not found".data "Method not found: ".data = true := by
    decide
  have h2 := chars_lead_extend "Method not found".data "Method not found: ".data m.data hb
  have hdata : ("Method not found: " ++ m).data = "Method not found: ".data ++ m.data := rfl
  unfold str_contains
  rw [hdata]
  exact chars_contain_of_lead _ _ h2

/-- C7 counterexample: the claim quantifies over every connection, but
on a registered backend with no open transport session the gateway's
"Not connected" failure precedes the whitelist check, so the unknown
method `nope/zzz` is answered with -32000, not -32601; and even on a
connected backend the method `initialize` — which is not in the
whitelist — is answered by the gateway with a success result rather than
-32601. -/
theorem unknown_method_code_counterexample :
    (streamable_http_post sample_down_mgr "x"
        (Json.obj [("id", Json.num 3), ("method", Json.str "nope/zzz")])).fst
      = HttpReply.json_body (error_envelope (Json.num 3) (-32000) "Not connected")
    ∧ ¬ ((-32000 : Int) = -32601)
    ∧ (streamable_http_post sample_mgr "x"
        (Json.obj [("id", Json.num 1), ("method", Json.str "initialize")])).fst
      = HttpReply.json_body (success_envelope (Json.num 1) initialize_result)
    ∧ ¬ ("initialize" ∈ method_whitelist) :=
  ⟨rfl, by decide, rfl, by decide⟩

/-- C7 (amended): on a connection with an open transport session, an
id-carrying request whose method is outside the whitelist and is not
`initialize` is answered with a JSON-RPC error of code -32601 and
message `Method not found: {m}`; every failure whose display string
lacks the `Method not found` marker — in particular the fixed context
strings of all whitelisted calls and the "Not connected" failure — is
mapped to -32000 instead, so the two are distinguishable. -/
theorem unknown_method_code
    (conn : McpConnection) (svc : RunningService) (hsvc : conn.service = some svc)
    (m : String) (hm : m ∉ method_whitelist) (hinit : m ≠ "initialize")
    (body : Json) (hbm : (Json.get body "method").bind Json.as_str = some m)
    (rid : Json) (hid : Json.get body "id" = some rid)
    (d : List String × List String) :
    (handle_single_request body conn d).response
      = some (error_envelope rid (-32601) ("Method not found: " ++ m))
    ∧ (∀ e : String, str_contains e "Method not found" = false →
        error_code_for e = -32000)
    ∧ error_code_for "tools/list failed" = -32000
    ∧ error_code_for "Not connected" = -32000 := by
  have hms : m ≠ "ping" ∧ m ≠ "tools/list" ∧ m ≠ "tools/call" ∧ m ≠ "resources/list"
      ∧ m ≠ "resources/read" ∧ m ≠ "resources/templates/list" ∧ m ≠ "prompts/list"
      ∧ m ≠ "prompts/get" ∧ m ≠ "completion/complete" ∧ m ≠ "logging/setLevel" := by
    simp only [method_whitelist, List.mem_cons, List.not_mem_nil, or_false, not_or] at hm
    exact hm
  obtain ⟨h1, h2, h3, h4, h5, h6, h7, h8, h9, h10⟩ := hms
  have hexec : conn.execute_request m ((Json.get body "params").getD Json.null)
      = .error ("Method not found: " ++ m) := by
    unfold McpConnection.execute_request
    rw [hsvc]
    simp only [if_neg h1, if_neg h2, if_neg h3, if_neg h4, if_neg h5, if_neg h6,
      if_neg h7, if_neg h8, if_neg h9, if_neg h10]
  have hcode : error_code_for ("Method not found: " ++ m) = -32601 := by
    unfold error_code_for
    rw [method_not_found_marker m]
    rfl
  refine ⟨?_, ?_, by decide, by decide⟩
  · unfold handle_single_request
    rw [hbm, hid]
    simp only [if_neg hinit, hexec, hcode]
  · intro e he
    unfold error_code_for
    rw [he]
    rfl

/-- C7 amended witness: unknown method `nope/zzz` on the connected
sample backend gets -32601. -/
theorem unknown_method_code_witness :
    sample_conn.service = some sample_service
    ∧ ¬ ("nope/zzz" ∈ method_whitelist)
    ∧ (handle_single_request (Json.obj [("id", Json.num 3), ("method", Json.str "nope/zzz")])
        sample_conn (sample_mgr.get_disabled_items "x")).response
      = some (error_envelope (Json.num 3) (-32601) "Method not found: nope/zzz")
    ∧ (streamable_http_post sample_mgr "x"
        (Json.obj [("id", Json.num 3), ("method", Json.str "nope/zzz")])).fst
      = HttpReply.json_body (error_envelope (Json.num 3) (-32601) "Method not found: nope/zzz") :=
  ⟨rfl, by decide,
   (unknown_method_code sample_conn sample_service rfl "nope/zzz" (by decide) (by decide)
      (Json.obj [("id", Json.num 3), ("method", Json.str "nope/zzz")]) rfl
      (Json.num 3) rfl (sample_mgr.get_disabled_items "x")).1,
   rfl⟩

-- ---------------------------------------------------------------------------
-- C4: batch response correspondence
-- ---------------------------------------------------------------------------

/-- A batch element produces a response element exactly when it carries
both an `id` and a string-valued `method`. -/
def response_bearing (r : Json) : Bool :=
  ((Json.get r "method").bind Json.as_str).isSome && (Json.get r "id").isSome

/-- Whether an HTTP reply carries a JSON array body. -/
def HttpReply.is_json_array : HttpReply → Bool
  | .json_body (.arr _) => true
  | _ => false

/-- The id field of every envelope the handler builds. -/
theorem get_id_success_envelope (rid v : Json) :
    Json.get (success_envelope rid v) "id" = some rid := rfl

/-- The id field of the error envelope. -/
theorem get_id_error_envelope (rid : Json) (code : Int) (msg : String) :
    Json.get (error_envelope rid code msg) "id" = some rid := rfl

/-- Case analysis of `handle_single_request`: a non-response-bearing
element yields nothing; a response-bearing one yields exactly one
response whose `id` equals the request's `id`. -/
theorem handle_response_cases (r : Json) (conn : McpConnection)
    (d : List String × List String) :
    (response_bearing r = false ∧ (handle_single_request r conn d).response = none)
    ∨ (response_bearing r = true
       ∧ ∃ resp, (handle_single_request r conn d).response = some resp
          ∧ Json.get resp "id" = Json.get r "id") := by
  unfold response_bearing handle_single_request
  cases hme : (Json.get r "method").bind Json.as_str with
  | none => left; simp [hme]
  | some m =>
    cases hid : Json.get r "id" with
    | none => left; simp [hme, hid]
    | some rid =>
      right
      refine ⟨by simp [hme, hid], ?_⟩
      by_cases hinit : m = "initialize"
      · exact ⟨success_envelope rid initialize_result,
          by simp [hinit], by rw [get_id_success_envelope]⟩
      · cases hex : conn.execute_request m ((Json.get r "params").getD Json.null) with
        | ok v =>
          refine ⟨success_envelope rid
            (if m = "resources/list" then
              filter_field "resources" (keep_resource d.snd)
                (if m = "tools/list" then filter_field "tools" (keep_tool d.fst) v else v)
             else (if m = "tools/list" then filter_field "tools" (keep_tool d.fst) v else v)),
            ?_, by rw [get_id_success_envelope]⟩
          simp only [if_neg hinit, hex]
        | error e =>
          exact ⟨error_envelope rid (error_code_for e) e,
            by simp only [if_neg hinit, hex], by rw [get_id_error_envelope]⟩

/-- Length and order/id correspondence between the response-bearing
batch elements and the collected responses. -/
theorem batch_correspondence_core (conn : McpConnection)
    (d : List String × List String) :
    ∀ reqs : List Json,
      (reqs.filterMap (fun r => (handle_single_request r conn d).response)).length
        = (reqs.filter response_bearing).length
      ∧ List.Forall₂ (fun req resp => Json.get resp "id" = Json.get req "id")
          (reqs.filter response_bearing)
          (reqs.filterMap (fun r => (handle_single_request r conn d).response)) := by
  intro reqs
  induction reqs with
  | nil => exact ⟨rfl, List.Forall₂.nil⟩
  | cons r rest ih =>
    rcases handle_response_cases r conn d with ⟨hb, hr⟩ | ⟨hb, resp, hr, hrid⟩
    · simp only [List.filterMap_cons, List.filter_cons, hb, hr]
      simpa using ih
    · simp only [List.filterMap_cons, List.filter_cons, hb, hr]
      exact ⟨by simpa using ih.1, List.Forall₂.cons hrid ih.2⟩

/-- C4 counterexample: the batch `[{"id":1}]` has one id-carrying
element, but its lack of a `method` string means it contributes no
response element: the gateway replies HTTP 202 with no JSON array at
all, instead of the claimed array of length 1. -/
theorem batch_length_counterexample :
    (streamable_http_post sample_mgr "x" (Json.arr [Json.obj [("id", Json.num 1)]])).fst
      = HttpReply.accepted
    ∧ ((Json.arr [Json.obj [("id", Json.num 1)]]).as_array.getD []).countP
        (fun r => (Json.get r "id").isSome) = 1
    ∧ HttpReply.is_json_array
        (streamable_http_post sample_mgr "x" (Json.arr [Json.obj [("id", Json.num 1)]])).fst
      = false :=
  ⟨rfl, rfl, rfl⟩

/-- C4 (amended): for a batch POST, the collected responses are exactly
one per element carrying both an `id` and a string-valued `method`
(response-bearing), in input order, each response's `id` equal to its
request's `id`; the HTTP reply is that JSON array when it is non-empty
and 202 otherwise — in particular an all-notification batch (and more
generally a batch with no response-bearing element) yields 202. -/
theorem batch_response_correspondence (mgr : McpManager) (id : String)
    (conn : McpConnection) (hconn : mgr.get_connection id = some conn)
    (reqs : List Json) :
    (reqs.filterMap
        (fun r => (handle_single_request r conn (mgr.get_disabled_items id)).response)).length
      = (reqs.filter response_bearing).length
    ∧ List.Forall₂ (fun req resp => Json.get resp "id" = Json.get req "id")
        (reqs.filter response_bearing)
        (reqs.filterMap
          (fun r => (handle_single_request r conn (mgr.get_disabled_items id)).response))
    ∧ (streamable_http_post mgr id (.arr reqs)).fst
      = (if (reqs.filterMap
            (fun r => (handle_single_request r conn (mgr.get_disabled_items id)).response)).isEmpty
         then HttpReply.accepted
         else HttpReply.json_body (.arr (reqs.filterMap
            (fun r => (handle_single_request r conn (mgr.get_disabled_items id)).response)))) := by
  obtain ⟨hlen, hcorr⟩ := batch_correspondence_core conn (mgr.get_disabled_items id) reqs
  refine ⟨hlen, hcorr, ?_⟩
  unfold streamable_http_post
  rw [hconn]
  simp only [Json.as_array]
  cases he : (reqs.filterMap
      (fun r => (handle_single_request r conn (mgr.get_disabled_items id)).response)).isEmpty
  · simp [he]
  · simp [he]

/-- C4 amended witness: the spec's batch scenario — a `ping`
notification followed by an id-carrying `ping` — produces exactly the
one response, with matching id, returned as a one-element array. -/
theorem batch_response_correspondence_witness :
    sample_mgr.get_connection "x" = some sample_conn
    ∧ ([Json.obj [("jsonrpc", Json.str "2.0"), ("method", Json.str "ping")],
        Json.obj [("jsonrpc", Json.str "2.0"), ("id", Json.num 7), ("method", Json.str "ping")]].filterMap
          (fun r => (handle_single_request r sample_conn
            (sample_mgr.get_disabled_items "x")).response)).length
      = ([Json.obj [("jsonrpc", Json.str "2.0"), ("method", Json.str "ping")],
          Json.obj [("jsonrpc", Json.str "2.0"), ("id", Json.num 7), ("method", Json.str "ping")]].filter
            response_bearing).length
    ∧ (streamable_http_post sample_mgr "x"
        (Json.arr [Json.obj [("jsonrpc", Json.str "2.0"), ("method", Json.str "ping")],
                   Json.obj [("jsonrpc", Json.str "2.0"), ("id", Json.num 7), ("method", Json.str "ping")]])).fst
      = HttpReply.json_body (Json.arr [success_envelope (Json.num 7) (Json.obj [])]) :=
  ⟨rfl,
   (batch_response_correspondence sample_mgr "x" sample_conn rfl
      [Json.obj [("jsonrpc", Json.str "2.0"), ("method", Json.str "ping")],
       Json.obj [("jsonrpc", Json.str "2.0"), ("id", Json.num 7), ("method", Json.str "ping")]]).1,
   rfl⟩

-- ---------------------------------------------------------------------------
-- C5: registry size after initialize
-- ---------------------------------------------------------------------------

/-- Inserting replaces an existing key in place or appends a new one. -/
theorem insert_conn_keys (id : String) (c : McpConnection) :
    ∀ l : List (String × McpConnection),
      (insert_conn l id c).map Prod.fst
        = (if id ∈ l.map Prod.fst then l.map Prod.fst else l.map Prod.fst ++ [id]) := by
  intro l
  induction l with
  | nil => simp [insert_conn]
  | cons p rest ih =>
    obtain ⟨k, v⟩ := p
    by_cases hk : k = id
    · subst hk
      simp [insert_conn]
    · simp only [insert_conn, if_neg hk, List.map_cons, ih]
      have hmem : (id ∈ k :: List.map Prod.fst rest) ↔ (id ∈ List.map Prod.fst rest) := by
        simp only [List.mem_cons]
        constructor
        · rintro (h | h)
          · exact absurd h.symm hk
          · exact h
        · exact fun h => Or.inr h
      by_cases hm : id ∈ List.map Prod.fst rest
      · rw [if_pos hm, if_pos (hmem.mpr hm)]
      · rw [if_neg hm, if_neg (fun h => hm (hmem.mp h)), List.cons_append]

/-- Key-level mirror of the initialize fold. -/
def fold_keys (acc : List String) : List String → List String
  | [] => acc
  | k :: ks => fold_keys (if k ∈ acc then acc else acc ++ [k]) ks

/-- The registry built by the initialize fold has exactly the keys that
the key-level fold computes from the enabled ids. -/
theorem init_fold_keys (outcome : McpServerConfig → McpConnection) :
    ∀ (mcps : List McpServerConfig) (acc : List (String × McpConnection)),
      (mcps.foldl
        (fun a mcp => if mcp.enabled then insert_conn a mcp.id (outcome mcp) else a) acc).map Prod.fst
        = fold_keys (acc.map Prod.fst) ((mcps.filter (fun m => m.enabled)).map (fun m => m.id)) := by
  intro mcps
  induction mcps with
  | nil => intro acc; rfl
  | cons mcp rest ih =>
    intro acc
    cases he : mcp.enabled
    · simp only [List.foldl_cons, List.filter_cons, he, Bool.false_eq_true, if_neg,
        not_false_iff]
      exact ih acc
    · simp only [List.foldl_cons, List.filter_cons, he, if_pos, List.map_cons, fold_keys]
      rw [ih (insert_conn acc mcp.id (outcome mcp)), insert_conn_keys]

/-- The key fold preserves distinctness. -/
theorem fold_keys_nodup : ∀ (ks acc : List String), acc.Nodup → (fold_keys acc ks).Nodup := by
  intro ks
  induction ks with
  | nil => intro acc h; exact h
  | cons k rest ih =>
    intro acc h
    unfold fold_keys
    by_cases hm : k ∈ acc
    · rw [if_pos hm]; exact ih acc h
    · rw [if_neg hm]
      refine ih _ ?_
      rw [List.nodup_append]
      exact ⟨h, List.nodup_singleton k, fun a ha hb => by
        rw [List.mem_singleton] at hb; subst hb; exact hm ha⟩

/-- The key fold accumulates exactly the union of the key sets. -/
theorem fold_keys_toFinset : ∀ (ks acc : List String),
    (fold_keys acc ks).toFinset = acc.toFinset ∪ ks.toFinset := by
  intro ks
  induction ks with
  | nil => intro acc; simp [fold_keys]
  | cons k rest ih =>
    intro acc
    unfold fold_keys
    by_cases hm : k ∈ acc
    · rw [if_pos hm, ih]
      ext x
      simp only [Finset.mem_union, List.mem_toFinset, List.toFinset_cons, Finset.mem_insert]
      constructor
      · rintro (h | h)
        · exact Or.inl h
        · exact Or.inr (Or.inr h)
      · rintro (h | h | h)
        · exact Or.inl h
        · subst h; exact Or.inl hm
        · exact Or.inr h
    · rw [if_neg hm, ih]
      ext x
      simp only [Finset.mem_union, List.mem_toFinset, List.toFinset_cons, Finset.mem_insert,
        List.mem_append, List.mem_singleton]
      tauto

/-- The disabled entry used by the C5 counterexample. -/
def c5_disabled_config : McpServerConfig :=
  { id := "a", name := "a", transport_type := .stdio, command := some "cmd",
    enabled := false }

/-- A valid config containing exactly one (disabled) backend entry. -/
def c5_app_config : AppConfig :=
  { proxy_port := 3001, health_check_interval_secs := 30, auto_reconnect := true,
    max_reconnect_attempts := 5, connection_timeout_secs := 30,
    mcps := [c5_disabled_config] }

/-- C5 counterexample: a valid config with one disabled backend entry
passes validation, but initialize skips disabled entries entirely, so
the registry holds 0 supervisors while cfg.mcps has 1 entry. -/
theorem init_registry_count_counterexample :
    ConfigManager.validate c5_app_config = .ok ()
    ∧ (( McpManager.new c5_app_config).init McpConnection.new).connections.length = 0
    ∧ c5_app_config.mcps.length = 1
    ∧ ¬ ((( McpManager.new c5_app_config).init McpConnection.new).connections.length
          = c5_app_config.mcps.length) :=
  ⟨rfl, rfl, rfl, by decide⟩

/-- C5 (amended): for every valid config, constructing a Manager and
running initialize always succeeds (it is total; connect failures are
logged, not fatal — the registry insertion does not depend on the
connect outcome), and afterwards the registry size equals the number of
distinct ids among the **enabled** entries of cfg.mcps; in particular,
with pairwise-distinct ids there is exactly one supervisor per enabled
backend and no duplicates. -/
theorem init_registry_count (cfg : AppConfig)
    (connect_outcome : McpServerConfig → McpConnection)
    (hv : ConfigManager.validate cfg = .ok ()) :
    (( McpManager.new cfg).init connect_outcome).connections.length
      = ((cfg.mcps.filter (fun m => m.enabled)).map (fun m => m.id)).toFinset.card := by
  have hkeys := init_fold_keys connect_outcome cfg.mcps ([] : List (String × McpConnection))
  have hlen : (( McpManager.new cfg).init connect_outcome).connections.length
      = ((( McpManager.new cfg).init connect_outcome).connections.map Prod.fst).length := by
    simp
  rw [hlen]
  rw [show (( McpManager.new cfg).init connect_outcome).connections.map Prod.fst
      = fold_keys [] ((cfg.mcps.filter (fun m => m.enabled)).map (fun m => m.id)) from hkeys]
  have hnodup := fold_keys_nodup
    ((cfg.mcps.filter (fun m => m.enabled)).map (fun m => m.id)) [] List.nodup_nil
  rw [← List.toFinset_card_of_nodup hnodup]
  rw [fold_keys_toFinset]
  simp

/-- C5 amended witness: the sample config (one enabled backend) yields a
one-entry registry. -/
theorem init_registry_count_witness :
    ConfigManager.validate sample_app_config = .ok ()
    ∧ (( McpManager.new sample_app_config).init McpConnection.new).connections.length
        = ((sample_app_config.mcps.filter (fun m => m.enabled)).map (fun m => m.id)).toFinset.card :=
  ⟨rfl, init_registry_count sample_app_config McpConnection.new rfl⟩

-- ---------------------------------------------------------------------------
-- C1: tools/list and resources/list filtering
-- ---------------------------------------------------------------------------

/-- Filtering an object whose `key` entry is an array filters exactly
that array, keeping everything else. -/
theorem filter_field_get_obj (key : String) (keep : Json → Bool) :
    ∀ (fields : List (String × Json)) (xs : List Json),
      Json.get (.obj fields) key = some (.arr xs) →
      Json.get (filter_field key keep (.obj fields)) key
        = some (.arr (xs.filter keep)) := by
  intro fields
  induction fields with
  | nil => intro xs h; simp [Json.get] at h
  | cons p rest ih =>
    intro xs h
    obtain ⟨k0, v0⟩ := p
    by_cases hk : k0 = key
    · have hkb : (k0 == key) = true := by simp [hk]
      simp only [Json.get, List.find?_cons, hkb, Option.map_some'] at h
      have hv0 : v0 = .arr xs := Option.some.inj h
      subst hv0
      simp only [filter_field, List.map_cons, if_pos hk, Json.get, List.find?_cons, hkb,
        Option.map_some']
    · have hkb : (k0 == key) = false := by simp [hk]
      simp only [Json.get, List.find?_cons, hkb, Option.map_some'] at h
      simp only [filter_field, List.map_cons, if_neg hk, Json.get, List.find?_cons, hkb]
      have hrec := ih xs h
      simpa [filter_field, Json.get] using hrec

/-- Filtering characterization for any JSON value whose `key` entry is
an array. -/
theorem filter_field_get (key : String) (keep : Json → Bool) (v : Json)
    (xs : List Json) (h : Json.get v key = some (.arr xs)) :
    Json.get (filter_field key keep v) key = some (.arr (xs.filter keep)) := by
  cases v with
  | obj fields => exact filter_field_get_obj key keep fields xs h
  | null => simp [Json.get] at h
  | bool b => simp [Json.get] at h
  | num n => simp [Json.get] at h
  | str s => simp [Json.get] at h
  | arr a => simp [Json.get] at h

/-- C1: for a backend whose config entry disables tools D and resources
R, the id-carrying tools/list (resources/list) POST result is exactly
the backend's result with the entries of the `tools` (`resources`) array
whose string `name` (`uri`) is in D (R) removed — entries lacking a
string key field are kept, order is preserved (`List.filter`) — and the
handler leaves the connection, including its cached capability snapshot,
untouched. -/
theorem tools_resources_list_filtering
    (mgr : McpManager) (id : String) (conn : McpConnection) (svc : RunningService)
    (entry : McpServerConfig)
    (hconn : mgr.get_connection id = some conn)
    (hentry : mgr.config.mcps.find? (fun c => c.id == id) = some entry)
    (hsvc : conn.service = some svc) :
    (∀ (body rid v : Json), body.as_array = none →
        (Json.get body "method").bind Json.as_str = some "tools/list" →
        Json.get body "id" = some rid →
        svc.list_tools = Except.ok v →
        streamable_http_post mgr id body
          = (.json_body (success_envelope rid
               (filter_field "tools" (keep_tool entry.disabled_tools) v)),
             [("tools/list", (Json.get body "params").getD Json.null)])
          ∧ (handle_single_request body conn (mgr.get_disabled_items id)).conn = conn)
    ∧ (∀ (body rid v : Json), body.as_array = none →
        (Json.get body "method").bind Json.as_str = some "resources/list" →
        Json.get body "id" = some rid →
        svc.list_resources = Except.ok v →
        streamable_http_post mgr id body
          = (.json_body (success_envelope rid
               (filter_field "resources" (keep_resource entry.disabled_resources) v)),
             [("resources/list", (Json.get body "params").getD Json.null)])
          ∧ (handle_single_request body conn (mgr.get_disabled_items id)).conn = conn)
    ∧ (∀ (v : Json) (xs : List Json), Json.get v "tools" = some (.arr xs) →
        Json.get (filter_field "tools" (keep_tool entry.disabled_tools) v) "tools"
          = some (.arr (xs.filter (keep_tool entry.disabled_tools))))
    ∧ (∀ (v : Json) (xs : List Json), Json.get v "resources" = some (.arr xs) →
        Json.get (filter_field "resources" (keep_resource entry.disabled_resources) v)
            "resources"
          = some (.arr (xs.filter (keep_resource entry.disabled_resources))))
    ∧ (∀ (t : Json) (name : String), Json.get t "name" = some (.str name) →
        keep_tool entry.disabled_tools t = !(entry.disabled_tools.contains name))
    ∧ (∀ t : Json, (Json.get t "name").bind Json.as_str = none →
        keep_tool entry.disabled_tools t = true)
    ∧ (∀ (r : Json) (uri : String), Json.get r "uri" = some (.str uri) →
        keep_resource entry.disabled_resources r
          = !(entry.disabled_resources.contains uri))
    ∧ (∀ r : Json, (Json.get r "uri").bind Json.as_str = none →
        keep_resource entry.disabled_resources r = true) := by
  have hdis : mgr.get_disabled_items id
      = (entry.disabled_tools, entry.disabled_resources) := by
    unfold McpManager.get_disabled_items
    rw [hentry]
  refine ⟨?_, ?_, ?_, ?_, ?_, ?_, ?_, ?_⟩
  · intro body rid v harr hm hid hlt
    have hexec : conn.execute_request "tools/list"
        ((Json.get body "params").getD Json.null) = .ok v := by
      unfold McpConnection.execute_request
      simp only [hsvc, hlt]
      rfl
    have hh : handle_single_request body conn (mgr.get_disabled_items id)
        = ⟨some (success_envelope rid
             (filter_field "tools" (keep_tool entry.disabled_tools) v)),
           [("tools/list", (Json.get body "params").getD Json.null)], conn⟩ := by
      unfold handle_single_request
      rw [hm, hid, hdis]
      simp only [if_neg (show ¬("tools/list" : String) = "initialize" from by decide),
        hexec,
        if_pos (show ("tools/list" : String) = "tools/list" from rfl), if_true,
        if_neg (show ¬("tools/list" : String) = "resources/list" from by decide)]
    refine ⟨?_, by rw [hh]⟩
    unfold streamable_http_post
    rw [hconn]
    simp only [harr, hh]
  · intro body rid v harr hm hid hlr
    have hexec : conn.execute_request "resources/list"
        ((Json.get body "params").getD Json.null) = .ok v := by
      unfold McpConnection.execute_request
      simp only [hsvc, hlr]
      rfl
    have hh : handle_single_request body conn (mgr.get_disabled_items id)
        = ⟨some (success_envelope rid
             (filter_field "resources" (keep_resource entry.disabled_resources) v)),
           [("resources/list", (Json.get body "params").getD Json.null)], conn⟩ := by
      unfold handle_single_request
      rw [hm, hid, hdis]
      simp only [if_neg (show ¬("resources/list" : String) = "initialize" from by decide),
        hexec,
        if_neg (show ¬("resources/list" : String) = "tools/list" from by decide),
        if_pos (show ("resources/list" : String) = "resources/list" from rfl), if_true]
    refine ⟨?_, by rw [hh]⟩
    unfold streamable_http_post
    rw [hconn]
    simp only [harr, hh]
  · intro v xs h
    exact filter_field_get "tools" (keep_tool entry.disabled_tools) v xs h
  · intro v xs h
    exact filter_field_get "resources" (keep_resource entry.disabled_resources) v xs h
  · intro t name h
    unfold keep_tool
    rw [h]
    rfl
  · intro t h
    unfold keep_tool
    rw [h]
  · intro r uri h
    unfold keep_resource
    rw [h]
    rfl
  · intro r h
    unfold keep_resource
    rw [h]

/-- C1 witness: the sample backend reports tools `a`, `b` and a nameless
entry with `disabled_tools = [b]`, and resources `u1`, `u2` with
`disabled_resources = [u2]`; the POST results keep exactly `a` plus the
nameless entry, and exactly `u1`. -/
theorem tools_resources_list_filtering_witness :
    sample_mgr.get_connection "x" = some sample_conn
    ∧ sample_mgr.config.mcps.find? (fun c => c.id == "x") = some sample_config
    ∧ sample_conn.service = some sample_service
    ∧ streamable_http_post sample_mgr "x"
        (Json.obj [("id", Json.num 2), ("method", Json.str "tools/list")])
      = (.json_body (success_envelope (Json.num 2)
           (Json.obj [("tools", Json.arr
             [Json.obj [("name", Json.str "a")], Json.obj [("x", Json.num 1)]])])),
         [("tools/list", Json.null)])
    ∧ streamable_http_post sample_mgr "x"
        (Json.obj [("id", Json.num 5), ("method", Json.str "resources/list")])
      = (.json_body (success_envelope (Json.num 5)
           (Json.obj [("resources", Json.arr [Json.obj [("uri", Json.str "u1")]])])),
         [("resources/list", Json.null)])
    ∧ (handle_single_request
        (Json.obj [("id", Json.num 2), ("method", Json.str "tools/list")])
        sample_conn (sample_mgr.get_disabled_items "x")).conn = sample_conn := by
  have h := tools_resources_list_filtering sample_mgr "x" sample_conn sample_service
    sample_config rfl rfl rfl
  have h1 := h.1 (Json.obj [("id", Json.num 2), ("method", Json.str "tools/list")])
    (Json.num 2)
    (Json.obj [("tools", Json.arr
      [Json.obj [("name", Json.str "a")], Json.obj [("name", Json.str "b")],
       Json.obj [("x", Json.num 1)]])])
    rfl rfl rfl rfl
  have h2 := h.2.1 (Json.obj [("id", Json.num 5), ("method", Json.str "resources/list")])
    (Json.num 5)
    (Json.obj [("resources", Json.arr
      [Json.obj [("uri", Json.str "u1")], Json.obj [("uri", Json.str "u2")]])])
    rfl rfl rfl rfl
  exact ⟨rfl, rfl, rfl, by rw [h1.1]; rfl, by rw [h2.1]; rfl, h1.2⟩

end McpProxy
